import Mathlib

/-!
Shallow embedding of the channel module of a chat-platform client SDK
(src/structures/channel.ts): the overwrite-based permission resolver,
the channel factory, and the guarded outbound actions
(getMessage, getMessages, sendMessage, deleteMessages, getInvites,
createInvite, getWebhooks, edit).

External collaborators (the transport, the guild permission oracle, the
permission codec) are passed in as function parameters, mirroring the
imports of the source file.  Effects (transport calls, the warning log,
in-place mutation of the ids array) are made explicit in the returned
outcome values.
-/

namespace Discordeno

/-- A raw permission overwrite as carried by the channel payload:
a target id and two integer bitmasks. -/
structure RawOverwrite where
  id : String
  allow : Nat
  deny : Nat
deriving DecidableEq

/-- The raw channel payload (the fields of ChannelCreatePayload that the
module reads); optional fields model fields that may be absent. -/
structure ChannelCreatePayload where
  id : String
  guild_id : Option String
  last_message_id : Option String
  user_limit : Option Nat
  rate_limit_per_user : Option Nat
  parent_id : Option String
  last_pin_timestamp : Option String
  permission_overwrites : Option (List RawOverwrite)
  nsfw : Option Bool
deriving DecidableEq

/-- Modelled from the spec: the permission flag enumeration lives in
src/types/permission.ts, which is not part of the provided sources; the
spec describes it as an external fixed enumeration of distinct
power-of-two integers, with VIEW_CHANNEL = 1024.  The values below are
the platform's published bit assignments. -/
def Permissions.CREATE_INSTANT_INVITE : Nat := 1

/-- Modelled from the spec: see Permissions.CREATE_INSTANT_INVITE. -/
def Permissions.MANAGE_CHANNELS : Nat := 16

/-- Modelled from the spec: see Permissions.CREATE_INSTANT_INVITE. -/
def Permissions.VIEW_CHANNEL : Nat := 1024

/-- Modelled from the spec: see Permissions.CREATE_INSTANT_INVITE. -/
def Permissions.SEND_MESSAGES : Nat := 2048

/-- Modelled from the spec: see Permissions.CREATE_INSTANT_INVITE. -/
def Permissions.SEND_TTS_MESSAGES : Nat := 4096

/-- Modelled from the spec: see Permissions.CREATE_INSTANT_INVITE. -/
def Permissions.MANAGE_MESSAGES : Nat := 8192

/-- Modelled from the spec: see Permissions.CREATE_INSTANT_INVITE. -/
def Permissions.READ_MESSAGE_HISTORY : Nat := 65536

/-- Modelled from the spec: see Permissions.CREATE_INSTANT_INVITE. -/
def Permissions.MANAGE_WEBHOOKS : Nat := 536870912

/-- Modelled from the spec: the endpoint path builders live in
src/constants/discord.ts, which is not part of the provided sources; the
spec describes them as pure functions from identifiers to path strings. -/
def endpoints.CHANNEL_MESSAGE (channelId messageId : String) : String :=
  "/channels/" ++ channelId ++ "/messages/" ++ messageId

/-- Modelled from the spec: see endpoints.CHANNEL_MESSAGE. -/
def endpoints.CHANNEL_MESSAGES (channelId : String) : String :=
  "/channels/" ++ channelId ++ "/messages"

/-- Modelled from the spec: see endpoints.CHANNEL_MESSAGE. -/
def endpoints.CHANNEL_BULK_DELETE (channelId : String) : String :=
  "/channels/" ++ channelId ++ "/messages/bulk-delete"

/-- Modelled from the spec: see endpoints.CHANNEL_MESSAGE. -/
def endpoints.CHANNEL_INVITES (channelId : String) : String :=
  "/channels/" ++ channelId ++ "/invites"

/-- Modelled from the spec: see endpoints.CHANNEL_MESSAGE. -/
def endpoints.CHANNEL_WEBHOOKS (channelId : String) : String :=
  "/channels/" ++ channelId ++ "/webhooks"

/-- Modelled from the spec: see endpoints.CHANNEL_MESSAGE. -/
def endpoints.GUILD_CHANNELS (channelId : String) : String :=
  "/channels/" ++ channelId

/-- The per-flag check inside the every-callback of hasPermission
(channel.ts lines 62-69): a flag in deny fails, else a flag in allow
passes, else with a guild id the guild oracle decides for that single
flag, and without one the flag fails. -/
def flagPasses (overwrite : RawOverwrite) (guildID : Option String)
    (botHasPermission : String → List Nat → Bool) (perm : Nat) : Bool :=
  if overwrite.deny &&& perm != 0 then false
  else if overwrite.allow &&& perm != 0 then true
  else
    match guildID with
    | some g => botHasPermission g [perm]
    | none => false

/-- The overwrite selection of hasPermission (channel.ts lines 56-59):
the JS short-circuit or of a find by the queried id and a find by the
channel's guild id (a comparison against a possibly-undefined guildID,
which never matches when the guild id is absent). -/
def selectedOverwrite (permission_overwrites : Option (List RawOverwrite))
    (guildID : Option String) (id : String) : Option RawOverwrite :=
  match permission_overwrites.bind
      (fun l => l.find? (fun perm => perm.id == id)) with
  | some ow => some ow
  | none =>
    permission_overwrites.bind
      (fun l => l.find? (fun perm => guildID == some perm.id))

/-- The hasPermission closure of createChannel (channel.ts lines 55-70):
a missing overwrite yields false, and otherwise the requested flags are
checked by the short-circuiting Array.prototype.every. -/
def hasPermission (permission_overwrites : Option (List RawOverwrite))
    (guildID : Option String) (botHasPermission : String → List Nat → Bool)
    (id : String) (permissions : List Nat) : Bool :=
  match selectedOverwrite permission_overwrites guildID id with
  | none => false
  | some ow => permissions.all (flagPasses ow guildID botHasPermission)

/-- A normalized overwrite of the constructed channel: allow and deny
are run through calculatePermissions, whose result type is abstract here
(the codec lives outside the provided sources). -/
structure NormalizedOverwrite (α : Type) where
  id : String
  allow : α
  deny : α

/-- The channel entity built by createChannel: the renamed raw fields,
the normalized overwrites, the nsfw default and the derived mention. -/
structure Channel (α : Type) where
  id : String
  raw : ChannelCreatePayload
  guildID : Option String
  lastMessageID : Option String
  userLimit : Option Nat
  rateLimitPerUser : Option Nat
  parentID : Option String
  lastPinTimestamp : Option String
  permissions : List (NormalizedOverwrite α)
  nsfw : Bool
  mention : String

/-- createChannel (channel.ts lines 24-53): copies and renames the raw
fields, normalizes each overwrite through calculatePermissions (passed
in, as the codec is an external collaborator), defaults the overwrite
list to empty and nsfw to false when absent, and derives the mention
string. -/
def createChannel {α : Type} (calculatePermissions : Nat → α)
    (data : ChannelCreatePayload) : Channel α :=
  ⟨data.id, data, data.guild_id, data.last_message_id, data.user_limit,
    data.rate_limit_per_user, data.parent_id, data.last_pin_timestamp,
    (match data.permission_overwrites with
      | some l =>
        l.map (fun perm =>
          ⟨perm.id, calculatePermissions perm.allow,
            calculatePermissions perm.deny⟩)
      | none => []),
    data.nsfw.getD false,
    "<#" ++ data.id ++ ">"⟩

/-- The error values thrown by the guarded actions (from the Errors
enumeration referenced in channel.ts). -/
inductive ActionError where
  | MISSING_VIEW_CHANNEL
  | MISSING_READ_MESSAGE_HISTORY
  | MISSING_SEND_MESSAGES
  | MISSING_SEND_TTS_MESSAGE
  | MISSING_MANAGE_MESSAGES
  | MISSING_MANAGE_CHANNELS
  | MISSING_CREATE_INSTANT_INVITE
  | MISSING_MANAGE_WEBHOOKS
  | DELETE_MESSAGES_MIN
  | MESSAGE_MAX_LENGTH
deriving DecidableEq

/-- Whether an error is a missing-capability (PermissionDenied-style)
error, as opposed to a structural-validation error. -/
def ActionError.isPermissionDenied : ActionError → Bool
  | ActionError.DELETE_MESSAGES_MIN => false
  | ActionError.MESSAGE_MAX_LENGTH => false
  | _ => true

/-- The message content object: the optional content string and the tts
flag (absent tts behaves as false). -/
structure MessageContent where
  content : Option String
  tts : Bool
deriving DecidableEq

/-- The argument of sendMessage: a plain string or a content object. -/
inductive SendArg where
  | str (s : String)
  | obj (c : MessageContent)
deriving DecidableEq

/-- The string-normalization step of sendMessage (channel.ts line 134):
a plain string s becomes the object with content s. -/
def normalizeContent : SendArg → MessageContent
  | SendArg.str s => ⟨some s, false⟩
  | SendArg.obj c => c

/-- The options object of getMessages; only the limit field is read by
the guarded wrapper. -/
structure GetMessagesOptions where
  limit : Option Nat
deriving DecidableEq

/-- Outcome of a guarded action that either throws before dispatch or
issues exactly one transport call to a path. -/
inductive SimpleOutcome where
  | err (e : ActionError)
  | dispatched (path : String)
deriving DecidableEq

/-- Outcome of getMessages: a thrown permission error, the silent
return (no dispatch) on an oversized limit, or one GET call carrying
the options. -/
inductive GetMessagesOutcome where
  | err (e : ActionError)
  | noop
  | dispatched (path : String) (options : Option GetMessagesOptions)
deriving DecidableEq

/-- Outcome of sendMessage: a thrown error or one POST call with the
normalized content as body. -/
inductive SendMessageOutcome where
  | err (e : ActionError)
  | dispatched (path : String) (body : MessageContent)
deriving DecidableEq

/-- Outcome of deleteMessages: a thrown error or one POST call with the
spliced-out message ids and the reason.  warned records the logYellow
side effect; idsAfter is the caller's ids array after the call (splice
mutates it in place). -/
inductive DeleteMessagesOutcome where
  | err (e : ActionError) (idsAfter : List String)
  | dispatched (path : String) (messages : List String)
      (reason : Option String) (warned : Bool) (idsAfter : List String)
deriving DecidableEq

/-- Number of transport calls an outcome performs. -/
def SimpleOutcome.transportCalls : SimpleOutcome → Nat
  | SimpleOutcome.err _ => 0
  | SimpleOutcome.dispatched _ => 1

/-- Number of transport calls a getMessages outcome performs. -/
def GetMessagesOutcome.transportCalls : GetMessagesOutcome → Nat
  | GetMessagesOutcome.err _ => 0
  | GetMessagesOutcome.noop => 0
  | GetMessagesOutcome.dispatched _ _ => 1

/-- Number of transport calls a sendMessage outcome performs. -/
def SendMessageOutcome.transportCalls : SendMessageOutcome → Nat
  | SendMessageOutcome.err _ => 0
  | SendMessageOutcome.dispatched _ _ => 1

/-- Number of transport calls a deleteMessages outcome performs. -/
def DeleteMessagesOutcome.transportCalls : DeleteMessagesOutcome → Nat
  | DeleteMessagesOutcome.err _ _ => 0
  | DeleteMessagesOutcome.dispatched _ _ _ _ _ => 1

/-- The caller's ids array after a deleteMessages call. -/
def DeleteMessagesOutcome.idsAfter : DeleteMessagesOutcome → List String
  | DeleteMessagesOutcome.err _ ids => ids
  | DeleteMessagesOutcome.dispatched _ _ _ _ ids => ids

/-- Whether an outcome is a thrown PermissionDenied-style error. -/
def SimpleOutcome.permissionDenied : SimpleOutcome → Bool
  | SimpleOutcome.err e => e.isPermissionDenied
  | SimpleOutcome.dispatched _ => false

/-- Whether a getMessages outcome is a thrown PermissionDenied-style
error. -/
def GetMessagesOutcome.permissionDenied : GetMessagesOutcome → Bool
  | GetMessagesOutcome.err e => e.isPermissionDenied
  | GetMessagesOutcome.noop => false
  | GetMessagesOutcome.dispatched _ _ => false

/-- Whether a sendMessage outcome is a thrown PermissionDenied-style
error. -/
def SendMessageOutcome.permissionDenied : SendMessageOutcome → Bool
  | SendMessageOutcome.err e => e.isPermissionDenied
  | SendMessageOutcome.dispatched _ _ => false

/-- Whether a deleteMessages outcome is a thrown PermissionDenied-style
error. -/
def DeleteMessagesOutcome.permissionDenied : DeleteMessagesOutcome → Bool
  | DeleteMessagesOutcome.err e _ => e.isPermissionDenied
  | DeleteMessagesOutcome.dispatched _ _ _ _ _ => false

/-- getMessage (channel.ts lines 72-92): on a guild channel assert
VIEW_CHANNEL then READ_MESSAGE_HISTORY against the guild oracle, then
GET the single-message endpoint. -/
def getMessage (guild_id : Option String) (channelId : String)
    (botHasPermission : String → List Nat → Bool) (id : String) :
    SimpleOutcome :=
  match guild_id with
  | some g =>
    if !botHasPermission g [Permissions.VIEW_CHANNEL] then
      SimpleOutcome.err ActionError.MISSING_VIEW_CHANNEL
    else if !botHasPermission g [Permissions.READ_MESSAGE_HISTORY] then
      SimpleOutcome.err ActionError.MISSING_READ_MESSAGE_HISTORY
    else SimpleOutcome.dispatched (endpoints.CHANNEL_MESSAGE channelId id)
  | none => SimpleOutcome.dispatched (endpoints.CHANNEL_MESSAGE channelId id)

/-- getMessages (channel.ts lines 94-124): on a guild channel assert
VIEW_CHANNEL then READ_MESSAGE_HISTORY; then, when a (truthy) limit
above 100 is given, return without dispatching; otherwise GET the
message-list endpoint with the options. -/
def getMessages (guild_id : Option String) (channelId : String)
    (botHasPermission : String → List Nat → Bool)
    (options : Option GetMessagesOptions) : GetMessagesOutcome :=
  match guild_id with
  | some g =>
    if !botHasPermission g [Permissions.VIEW_CHANNEL] then
      GetMessagesOutcome.err ActionError.MISSING_VIEW_CHANNEL
    else if !botHasPermission g [Permissions.READ_MESSAGE_HISTORY] then
      GetMessagesOutcome.err ActionError.MISSING_READ_MESSAGE_HISTORY
    else if limitExceeds options then GetMessagesOutcome.noop
    else GetMessagesOutcome.dispatched (endpoints.CHANNEL_MESSAGES channelId)
      options
  | none =>
    if limitExceeds options then GetMessagesOutcome.noop
    else GetMessagesOutcome.dispatched (endpoints.CHANNEL_MESSAGES channelId)
      options
where
  /-- The JS condition options?.limit && options.limit > 100: the limit
  is present, truthy (nonzero) and above 100. -/
  limitExceeds : Option GetMessagesOptions → Bool
    | some o =>
      match o.limit with
      | some n => decide (0 < n) && decide (100 < n)
      | none => false
    | none => false

/-- sendMessage (channel.ts lines 133-163): normalize a string argument
to a content object; on a guild channel assert SEND_MESSAGES, and
SEND_TTS_MESSAGES when tts is set; then reject content longer than 2000
characters; otherwise POST the message.  (JS string truthiness of the
content field is absorbed: a length above 2000 implies a nonempty
string.) -/
def sendMessage (guild_id : Option String) (channelId : String)
    (botHasPermission : String → List Nat → Bool) (arg : SendArg) :
    SendMessageOutcome :=
  let content := normalizeContent arg
  match guild_id with
  | some g =>
    if !botHasPermission g [Permissions.SEND_MESSAGES] then
      SendMessageOutcome.err ActionError.MISSING_SEND_MESSAGES
    else if content.tts && !botHasPermission g [Permissions.SEND_TTS_MESSAGES] then
      SendMessageOutcome.err ActionError.MISSING_SEND_TTS_MESSAGE
    else if contentTooLong content then
      SendMessageOutcome.err ActionError.MESSAGE_MAX_LENGTH
    else SendMessageOutcome.dispatched (endpoints.CHANNEL_MESSAGES channelId)
      content
  | none =>
    if contentTooLong content then
      SendMessageOutcome.err ActionError.MESSAGE_MAX_LENGTH
    else SendMessageOutcome.dispatched (endpoints.CHANNEL_MESSAGES channelId)
      content
where
  /-- The JS condition content.content && content.content.length > 2000. -/
  contentTooLong : MessageContent → Bool
    | c =>
      match c.content with
      | some s => decide (2000 < s.length)
      | none => false

/-- deleteMessages (channel.ts lines 166-185): on a guild channel assert
MANAGE_MESSAGES; throw when fewer than 2 ids are given; log a warning
when more than 100 are given; POST the bulk-delete endpoint with
ids.splice(0, 100), which sends the first 100 ids and leaves the caller
holding the rest. -/
def deleteMessages (guild_id : Option String) (channelId : String)
    (botHasPermission : String → List Nat → Bool)
    (ids : List String) (reason : Option String) : DeleteMessagesOutcome :=
  match guild_id with
  | some g =>
    if !botHasPermission g [Permissions.MANAGE_MESSAGES] then
      DeleteMessagesOutcome.err ActionError.MISSING_MANAGE_MESSAGES ids
    else deleteMessagesValidate channelId ids reason
  | none => deleteMessagesValidate channelId ids reason
where
  /-- The validation and dispatch part after the permission gate. -/
  deleteMessagesValidate (channelId : String) (ids : List String)
      (reason : Option String) : DeleteMessagesOutcome :=
    if ids.length < 2 then
      DeleteMessagesOutcome.err ActionError.DELETE_MESSAGES_MIN ids
    else
      DeleteMessagesOutcome.dispatched (endpoints.CHANNEL_BULK_DELETE channelId)
        (ids.take 100) reason (decide (100 < ids.length)) (ids.drop 100)

/-- getInvites (channel.ts lines 187-195): on a guild channel assert
MANAGE_CHANNELS, then GET the invites endpoint. -/
def getInvites (guild_id : Option String) (channelId : String)
    (botHasPermission : String → List Nat → Bool) : SimpleOutcome :=
  match guild_id with
  | some g =>
    if !botHasPermission g [Permissions.MANAGE_CHANNELS] then
      SimpleOutcome.err ActionError.MISSING_MANAGE_CHANNELS
    else SimpleOutcome.dispatched (endpoints.CHANNEL_INVITES channelId)
  | none => SimpleOutcome.dispatched (endpoints.CHANNEL_INVITES channelId)

/-- createInvite (channel.ts lines 197-208): on a guild channel assert
CREATE_INSTANT_INVITE, then POST the invites endpoint with the options
(whose type the wrapper never inspects). -/
def createInvite {σ : Type} (guild_id : Option String) (channelId : String)
    (botHasPermission : String → List Nat → Bool) (options : σ) :
    SimpleOutcome :=
  match guild_id with
  | some g =>
    if !botHasPermission g [Permissions.CREATE_INSTANT_INVITE] then
      SimpleOutcome.err ActionError.MISSING_CREATE_INSTANT_INVITE
    else SimpleOutcome.dispatched (endpoints.CHANNEL_INVITES channelId)
  | none => SimpleOutcome.dispatched (endpoints.CHANNEL_INVITES channelId)

/-- getWebhooks (channel.ts lines 210-218): on a guild channel assert
MANAGE_WEBHOOKS, then GET the webhooks endpoint. -/
def getWebhooks (guild_id : Option String) (channelId : String)
    (botHasPermission : String → List Nat → Bool) : SimpleOutcome :=
  match guild_id with
  | some g =>
    if !botHasPermission g [Permissions.MANAGE_WEBHOOKS] then
      SimpleOutcome.err ActionError.MISSING_MANAGE_WEBHOOKS
    else SimpleOutcome.dispatched (endpoints.CHANNEL_WEBHOOKS channelId)
  | none => SimpleOutcome.dispatched (endpoints.CHANNEL_WEBHOOKS channelId)

/-- A transport call record, for frame reasoning about edit. -/
inductive TransportCall where
  | get (path : String)
  | post (path : String)
  | patch (path : String)
deriving DecidableEq

/-- The observable shared state threaded through edit: the process-wide
entity cache (Modelled from the spec: the cache itself lives in
src/module/client.ts, outside the provided sources; the spec describes
it as a channelId-to-entity mapping with last-write-wins put) and the
log of transport calls issued so far. -/
structure WorldState (ε : Type) where
  cache : List (String × ε)
  calls : List TransportCall

/-- edit (channel.ts lines 219-221): a single PATCH of the channel
endpoint with the options, returning the transport's raw result
directly.  No permission oracle is consulted (none is a parameter), the
result is not merged anywhere, and the cache component of the state is
passed through untouched. -/
def edit {σ ε ρ : Type} (channelId : String) (options : σ)
    (patchTransport : String → σ → ρ) (st : WorldState ε) :
    ρ × WorldState ε :=
  (patchTransport (endpoints.GUILD_CHANNELS channelId) options,
    ⟨st.cache,
      st.calls ++ [TransportCall.patch (endpoints.GUILD_CHANNELS channelId)]⟩)

/-- One flag of the every-callback passes exactly when the flag is
outside the deny mask and is either inside the allow mask or, with a
guild id present, granted by the guild oracle for that single flag. -/
theorem flagPasses_iff (ow : RawOverwrite) (guildID : Option String)
    (oracle : String → List Nat → Bool) (p : Nat) :
    flagPasses ow guildID oracle p = true ↔
      ow.deny &&& p = 0 ∧
        (ow.allow &&& p ≠ 0 ∨ ∃ g, guildID = some g ∧ oracle g [p] = true) := by
  unfold flagPasses
  cases guildID with
  | none =>
    by_cases hd : ow.deny &&& p = 0 <;> by_cases ha : ow.allow &&& p = 0 <;>
      simp [hd, ha]
  | some g =>
    by_cases hd : ow.deny &&& p = 0 <;> by_cases ha : ow.allow &&& p = 0 <;>
      simp [hd, ha]

/-- The selected overwrite is the first one matching the actor id, or,
when none matches it, the first one matching the guild id. -/
theorem selectedOverwrite_eq (ows : Option (List RawOverwrite))
    (guildID : Option String) (actor : String) (ow : RawOverwrite) :
    selectedOverwrite ows guildID actor = some ow ↔
      (ows.bind (fun l => l.find? (fun perm => perm.id == actor)) =
          some ow ∨
        (ows.bind (fun l => l.find? (fun perm => perm.id == actor)) =
            none ∧
          ows.bind (fun l => l.find? (fun perm => guildID == some perm.id)) =
            some ow)) := by
  unfold selectedOverwrite
  cases h1 : ows.bind (fun l => l.find? (fun perm => perm.id == actor)) with
  | some ow2 => simp [h1]
  | none => simp [h1]

/-- Full characterization of hasPermission: the actor-id overwrite is
preferred, then the guild-id overwrite; no overwrite means false; a
found overwrite grants exactly when every required flag avoids deny and
is in allow or granted by the guild oracle. -/
theorem hasPermission_iff
    (ows : Option (List RawOverwrite)) (guildID : Option String)
    (oracle : String → List Nat → Bool) (actor : String)
    (perms : List Nat) :
    hasPermission ows guildID oracle actor perms = true ↔
      ∃ ow,
        (ows.bind (fun l => l.find? (fun perm => perm.id == actor)) =
            some ow ∨
          (ows.bind (fun l => l.find? (fun perm => perm.id == actor)) =
              none ∧
            ows.bind (fun l => l.find? (fun perm => guildID == some perm.id)) =
              some ow)) ∧
        ∀ p ∈ perms, ow.deny &&& p = 0 ∧
          (ow.allow &&& p ≠ 0 ∨ ∃ g, guildID = some g ∧ oracle g [p] = true) := by
  unfold hasPermission
  cases hsel : selectedOverwrite ows guildID actor with
  | some ow =>
    simp only [List.all_eq_true, flagPasses_iff]
    constructor
    · intro hall
      exact ⟨ow, (selectedOverwrite_eq ows guildID actor ow).mp hsel, hall⟩
    · rintro ⟨ow2, how, hflags⟩
      have h := (selectedOverwrite_eq ows guildID actor ow2).mpr how
      rw [hsel] at h
      cases h
      exact hflags
  | none =>
    constructor
    · intro h
      cases h
    · rintro ⟨ow2, how, _⟩
      have h := (selectedOverwrite_eq ows guildID actor ow2).mpr how
      rw [hsel] at h
      cases h

/-- C1: hasPermission selects the overwrite whose target id equals the
actor id, otherwise the overwrite whose target id equals the guild id;
with neither it returns false regardless of the oracle, and otherwise
it returns true iff every required flag avoids the selected deny mask
and is either in the allow mask or, when a guild id is set, granted by
the fallback oracle for that single flag (the conjunction over the
flags short-circuits at the first failing flag). -/
theorem hasPermission_overwrite_resolution
    (ows : Option (List RawOverwrite)) (guildID : Option String)
    (oracle : String → List Nat → Bool) (actor : String)
    (perms : List Nat) :
    hasPermission ows guildID oracle actor perms = true ↔
      ∃ ow,
        (ows.bind (fun l => l.find? (fun perm => perm.id == actor)) =
            some ow ∨
          (ows.bind (fun l => l.find? (fun perm => perm.id == actor)) =
              none ∧
            ows.bind (fun l => l.find? (fun perm => guildID == some perm.id)) =
              some ow)) ∧
        ∀ p ∈ perms, ow.deny &&& p = 0 ∧
          (ow.allow &&& p ≠ 0 ∨ ∃ g, guildID = some g ∧ oracle g [p] = true) :=
  hasPermission_iff ows guildID oracle actor perms

/-- With no guild id, the guild-id find of selectedOverwrite never
matches, so only the actor-id find can select an overwrite. -/
theorem guild_find_none (ows : Option (List RawOverwrite)) :
    ows.bind (fun l =>
      l.find? (fun perm => (none : Option String) == some perm.id)) = none := by
  cases ows with
  | none => rfl
  | some l =>
    simp only [Option.some_bind]
    exact List.find?_eq_none.mpr (fun x _ => by simp)

/-- C2 counterexample: a channel payload without a guild id but with an
overwrite whose target id equals the actor id makes hasPermission
return true (allow mask 1024 covering the single requested flag 1024),
contradicting that the check returns false whenever no guild id is
present. -/
theorem hasPermission_no_guild_counterexample :
    hasPermission (some [⟨"u", 1024, 0⟩]) none (fun _ _ => false)
      "u" [1024] = true := by decide

/-- C2 amended: with no guild id, hasPermission returns false unless
some overwrite's target id equals the actor id, and with such an
overwrite (the first one) it returns true iff every required flag is
outside its deny mask and inside its allow mask; the guild fallback
oracle is never consulted. -/
theorem hasPermission_no_guild_actor_overwrite
    (ows : Option (List RawOverwrite)) (oracle : String → List Nat → Bool)
    (actor : String) (perms : List Nat) :
    hasPermission ows none oracle actor perms = true ↔
      ∃ ow,
        ows.bind (fun l => l.find? (fun perm => perm.id == actor)) =
          some ow ∧
        ∀ p ∈ perms, ow.deny &&& p = 0 ∧ ow.allow &&& p ≠ 0 := by
  rw [hasPermission_iff]
  constructor
  · rintro ⟨ow, how, hflags⟩
    rcases how with h | ⟨_, h2⟩
    · refine ⟨ow, h, fun p hp => ?_⟩
      rcases hflags p hp with ⟨hd, ha | ⟨g, hg, _⟩⟩
      · exact ⟨hd, ha⟩
      · cases hg
    · rw [guild_find_none ows] at h2
      cases h2
  · rintro ⟨ow, h, hflags⟩
    exact ⟨ow, Or.inl h, fun p hp => ⟨(hflags p hp).1, Or.inl (hflags p hp).2⟩⟩

/-- A 2001-character content string, used to exercise the too-long
validation branch at a concrete input. -/
def sampleLongContent : String := String.mk (List.replicate 2001 'a')

/-- The sample content has 2001 characters. -/
theorem sampleLongContent_length : sampleLongContent.length = 2001 := by
  show (List.replicate 2001 'a').length = 2001
  rw [List.length_replicate]

/-- C3 counterexample: a deleteMessages call with a single id (failing
the below-minimum structural validation) on a guild channel whose
oracle denies MANAGE_MESSAGES throws the missing-permission error, not
the validation error: the permission assertion runs first. -/
theorem deleteMessages_permission_error_first :
    deleteMessages (some "g") "c" (fun _ _ => false) ["1"] none =
        DeleteMessagesOutcome.err ActionError.MISSING_MANAGE_MESSAGES ["1"] ∧
      DeleteMessagesOutcome.err ActionError.MISSING_MANAGE_MESSAGES ["1"] ≠
        DeleteMessagesOutcome.err ActionError.DELETE_MESSAGES_MIN ["1"] := by
  constructor
  · rfl
  · decide

/-- C3 amended: permission assertions run before structural validation,
so a call that both fails structural validation and lacks the required
permission throws the missing-permission error, not the validation
error, and still issues zero transport calls. -/
theorem permission_assertions_precede_validation
    (g cid : String) (oracle : String → List Nat → Bool)
    (ids : List String) (reason : Option String) (arg : SendArg)
    (s : String)
    (hdm : oracle g [Permissions.MANAGE_MESSAGES] = false)
    (hsm : oracle g [Permissions.SEND_MESSAGES] = false)
    (hids : ids.length < 2)
    (hcontent : (normalizeContent arg).content = some s)
    (hlen : 2000 < s.length) :
    deleteMessages (some g) cid oracle ids reason =
        DeleteMessagesOutcome.err ActionError.MISSING_MANAGE_MESSAGES ids ∧
      (deleteMessages (some g) cid oracle ids reason).transportCalls = 0 ∧
      sendMessage (some g) cid oracle arg =
        SendMessageOutcome.err ActionError.MISSING_SEND_MESSAGES ∧
      (sendMessage (some g) cid oracle arg).transportCalls = 0 := by
  have h1 : deleteMessages (some g) cid oracle ids reason =
      DeleteMessagesOutcome.err ActionError.MISSING_MANAGE_MESSAGES ids := by
    simp [deleteMessages, hdm]
  have h2 : sendMessage (some g) cid oracle arg =
      SendMessageOutcome.err ActionError.MISSING_SEND_MESSAGES := by
    simp [sendMessage, hsm]
  exact ⟨h1, by rw [h1]; rfl, h2, by rw [h2]; rfl⟩

/-- C3 witness: the amended statement at a concrete denied-everything
oracle, one message id, and a 2001-character string content. -/
theorem permission_assertions_precede_validation_witness :
    deleteMessages (some "g") "c" (fun _ _ => false) ["1"] none =
        DeleteMessagesOutcome.err ActionError.MISSING_MANAGE_MESSAGES ["1"] ∧
      sendMessage (some "g") "c" (fun _ _ => false)
          (SendArg.str sampleLongContent) =
        SendMessageOutcome.err ActionError.MISSING_SEND_MESSAGES := by
  have h := permission_assertions_precede_validation "g" "c"
    (fun _ _ => false) ["1"] none (SendArg.str sampleLongContent)
    sampleLongContent rfl rfl (by decide) rfl
    (by rw [sampleLongContent_length]; decide)
  exact ⟨h.1, h.2.2.1⟩

/-- C4: with MANAGE_MESSAGES granted (or no guild id), deleteMessages
throws the below-minimum validation error on fewer than 2 ids with no
transport call; with more than 100 ids it warns and issues exactly one
transport call carrying the first 100 ids in order; with 2 to 100 ids
it issues exactly one transport call carrying all the ids and no
warning. -/
theorem deleteMessages_bounds (guild : Option String) (cid : String)
    (oracle : String → List Nat → Bool) (ids : List String)
    (reason : Option String)
    (hperm : ∀ g, guild = some g →
      oracle g [Permissions.MANAGE_MESSAGES] = true) :
    (ids.length < 2 →
      deleteMessages guild cid oracle ids reason =
          DeleteMessagesOutcome.err ActionError.DELETE_MESSAGES_MIN ids ∧
        (deleteMessages guild cid oracle ids reason).transportCalls = 0) ∧
    (100 < ids.length →
      deleteMessages guild cid oracle ids reason =
          DeleteMessagesOutcome.dispatched
            (endpoints.CHANNEL_BULK_DELETE cid) (ids.take 100) reason true
            (ids.drop 100) ∧
        (deleteMessages guild cid oracle ids reason).transportCalls = 1) ∧
    (2 ≤ ids.length → ids.length ≤ 100 →
      deleteMessages guild cid oracle ids reason =
          DeleteMessagesOutcome.dispatched
            (endpoints.CHANNEL_BULK_DELETE cid) ids reason false
            (ids.drop 100) ∧
        (deleteMessages guild cid oracle ids reason).transportCalls = 1) := by
  have hgate : deleteMessages guild cid oracle ids reason =
      deleteMessages.deleteMessagesValidate cid ids reason := by
    cases guild with
    | none => rfl
    | some g => simp [deleteMessages, hperm g rfl]
  refine ⟨fun h => ?_, fun h => ?_, fun h2 h100 => ?_⟩
  · have : deleteMessages.deleteMessagesValidate cid ids reason =
        DeleteMessagesOutcome.err ActionError.DELETE_MESSAGES_MIN ids := by
      simp [deleteMessages.deleteMessagesValidate, h]
    rw [hgate, this]
    exact ⟨rfl, rfl⟩
  · have hn2 : ¬ ids.length < 2 := by omega
    have : deleteMessages.deleteMessagesValidate cid ids reason =
        DeleteMessagesOutcome.dispatched (endpoints.CHANNEL_BULK_DELETE cid)
          (ids.take 100) reason true (ids.drop 100) := by
      simp [deleteMessages.deleteMessagesValidate, hn2, h]
    rw [hgate, this]
    exact ⟨rfl, rfl⟩
  · have hn2 : ¬ ids.length < 2 := by omega
    have hn100 : ¬ 100 < ids.length := by omega
    have : deleteMessages.deleteMessagesValidate cid ids reason =
        DeleteMessagesOutcome.dispatched (endpoints.CHANNEL_BULK_DELETE cid)
          ids reason false (ids.drop 100) := by
      simp [deleteMessages.deleteMessagesValidate, hn2, hn100,
        List.take_of_length_le h100]
    rw [hgate, this]
    exact ⟨rfl, rfl⟩

/-- C4 witness: the three branches at concrete inputs: one id throws
the minimum error; 101 ids dispatch the first 100 with a warning; three
ids dispatch all three without warning. -/
theorem deleteMessages_bounds_witness :
    deleteMessages (some "g") "c" (fun _ _ => true) ["1"] none =
        DeleteMessagesOutcome.err ActionError.DELETE_MESSAGES_MIN ["1"] ∧
      deleteMessages none "c" (fun _ _ => true)
          (List.replicate 101 "x") none =
        DeleteMessagesOutcome.dispatched
          (endpoints.CHANNEL_BULK_DELETE "c")
          ((List.replicate 101 "x").take 100) none true
          ((List.replicate 101 "x").drop 100) ∧
      deleteMessages (some "g") "c" (fun _ _ => true) ["1", "2", "3"] none =
        DeleteMessagesOutcome.dispatched
          (endpoints.CHANNEL_BULK_DELETE "c") ["1", "2", "3"] none false
          [] := by
  have ha := deleteMessages_bounds (some "g") "c" (fun _ _ => true) ["1"]
    none (fun g h => rfl)
  have hb := deleteMessages_bounds none "c" (fun _ _ => true)
    (List.replicate 101 "x") none (fun g h => by cases h)
  have hc := deleteMessages_bounds (some "g") "c" (fun _ _ => true)
    ["1", "2", "3"] none (fun g h => rfl)
  refine ⟨(ha.1 (by decide)).1, ?_, ?_⟩
  · exact (hb.2.1 (by rw [List.length_replicate]; decide)).1
  · have := (hc.2.2 (by decide) (by decide)).1
    exact this

/-- C5: when the normalized content is present and longer than 2000
characters and the permission assertions pass (or the channel has no
guild id), sendMessage throws the too-long validation error with zero
transport calls; a plain string argument is first normalized to an
object carrying it as content. -/
theorem sendMessage_too_long (guild : Option String) (cid : String)
    (oracle : String → List Nat → Bool) (arg : SendArg) (s : String)
    (hperm : ∀ g, guild = some g →
      oracle g [Permissions.SEND_MESSAGES] = true ∧
        ((normalizeContent arg).tts = true →
          oracle g [Permissions.SEND_TTS_MESSAGES] = true))
    (hcontent : (normalizeContent arg).content = some s)
    (hlen : 2000 < s.length) :
    sendMessage guild cid oracle arg =
        SendMessageOutcome.err ActionError.MESSAGE_MAX_LENGTH ∧
      (sendMessage guild cid oracle arg).transportCalls = 0 ∧
      ∀ t : String, normalizeContent (SendArg.str t) = ⟨some t, false⟩ := by
  have htl : sendMessage.contentTooLong (normalizeContent arg) = true := by
    simp [sendMessage.contentTooLong, hcontent, hlen]
  have hres : sendMessage guild cid oracle arg =
      SendMessageOutcome.err ActionError.MESSAGE_MAX_LENGTH := by
    cases guild with
    | none => simp [sendMessage, htl]
    | some g =>
      have h1 := (hperm g rfl).1
      cases htts : (normalizeContent arg).tts with
      | false => simp [sendMessage, h1, htts, htl]
      | true =>
        have h2 := (hperm g rfl).2 htts
        simp [sendMessage, h1, htts, h2, htl]
  exact ⟨hres, by rw [hres]; rfl, fun t => rfl⟩

/-- C5 witness: a 2001-character string argument on a channel without a
guild id throws the too-long validation error. -/
theorem sendMessage_too_long_witness :
    sendMessage none "c" (fun _ _ => false)
        (SendArg.str sampleLongContent) =
      SendMessageOutcome.err ActionError.MESSAGE_MAX_LENGTH :=
  (sendMessage_too_long none "c" (fun _ _ => false)
    (SendArg.str sampleLongContent) sampleLongContent
    (fun g h => by cases h) rfl
    (by rw [sampleLongContent_length]; decide)).1

/-- C6: when the permission assertions pass, getMessages with a limit
above 100 returns noop (no error) with zero transport calls, and with
every present limit at most 100 (or no limit at all) it issues exactly
one transport call. -/
theorem getMessages_limit_noop (guild : Option String) (cid : String)
    (oracle : String → List Nat → Bool)
    (options : Option GetMessagesOptions)
    (hperm : ∀ g, guild = some g →
      oracle g [Permissions.VIEW_CHANNEL] = true ∧
        oracle g [Permissions.READ_MESSAGE_HISTORY] = true) :
    (∀ o n, options = some o → o.limit = some n → 100 < n →
      getMessages guild cid oracle options = GetMessagesOutcome.noop ∧
        (getMessages guild cid oracle options).transportCalls = 0) ∧
    ((∀ o n, options = some o → o.limit = some n → n ≤ 100) →
      getMessages guild cid oracle options =
          GetMessagesOutcome.dispatched (endpoints.CHANNEL_MESSAGES cid)
            options ∧
        (getMessages guild cid oracle options).transportCalls = 1) := by
  have hgate : getMessages guild cid oracle options =
      (if getMessages.limitExceeds options then GetMessagesOutcome.noop
        else GetMessagesOutcome.dispatched (endpoints.CHANNEL_MESSAGES cid)
          options) := by
    cases guild with
    | none => rfl
    | some g => simp [getMessages, (hperm g rfl).1, (hperm g rfl).2]
  refine ⟨fun o n ho hn h100 => ?_, fun hle => ?_⟩
  · have hex : getMessages.limitExceeds options = true := by
      subst ho
      simp [getMessages.limitExceeds, hn]
      omega
    have hres : getMessages guild cid oracle options =
        GetMessagesOutcome.noop := by
      rw [hgate, hex]
      rfl
    exact ⟨hres, by rw [hres]; rfl⟩
  · have hex : getMessages.limitExceeds options = false := by
      cases options with
      | none => rfl
      | some o =>
        cases hn : o.limit with
        | none => simp [getMessages.limitExceeds, hn]
        | some n =>
          have hn100 := hle o n rfl hn
          simp [getMessages.limitExceeds, hn]
          omega
    have hres : getMessages guild cid oracle options =
        GetMessagesOutcome.dispatched (endpoints.CHANNEL_MESSAGES cid)
          options := by
      rw [hgate, hex]
      rfl
    exact ⟨hres, by rw [hres]; rfl⟩

/-- C6 witness: limit 150 is a silent no-op with zero transport calls,
limit 100 dispatches, both with an all-granting oracle on a guild
channel. -/
theorem getMessages_limit_noop_witness :
    getMessages (some "g") "c" (fun _ _ => true) (some ⟨some 150⟩) =
        GetMessagesOutcome.noop ∧
      getMessages (some "g") "c" (fun _ _ => true) (some ⟨some 100⟩) =
        GetMessagesOutcome.dispatched (endpoints.CHANNEL_MESSAGES "c")
          (some ⟨some 100⟩) := by
  have h1 := getMessages_limit_noop (some "g") "c" (fun _ _ => true)
    (some ⟨some 150⟩) (fun g h => ⟨rfl, rfl⟩)
  have h2 := getMessages_limit_noop (some "g") "c" (fun _ _ => true)
    (some ⟨some 100⟩) (fun g h => ⟨rfl, rfl⟩)
  refine ⟨(h1.1 ⟨some 150⟩ 150 rfl rfl (by decide)).1, ?_⟩
  exact (h2.2 (fun o n ho hn => by cases ho; cases hn; decide)).1

/-- C7: on a channel payload without a guild id, every guarded action
(getMessage, getMessages, sendMessage, deleteMessages, getInvites,
createInvite, getWebhooks) never throws a PermissionDenied-style error
and its outcome is independent of the guild permission oracle; only
structural validation branches remain. -/
theorem no_guild_skips_permission_checks {σ : Type} (cid mid : String)
    (oracle oracle2 : String → List Nat → Bool)
    (options : Option GetMessagesOptions) (arg : SendArg)
    (ids : List String) (reason : Option String) (invopts : σ) :
    (getMessage none cid oracle mid).permissionDenied = false ∧
      getMessage none cid oracle mid = getMessage none cid oracle2 mid ∧
      (getMessages none cid oracle options).permissionDenied = false ∧
      getMessages none cid oracle options =
        getMessages none cid oracle2 options ∧
      (sendMessage none cid oracle arg).permissionDenied = false ∧
      sendMessage none cid oracle arg = sendMessage none cid oracle2 arg ∧
      (deleteMessages none cid oracle ids reason).permissionDenied = false ∧
      deleteMessages none cid oracle ids reason =
        deleteMessages none cid oracle2 ids reason ∧
      (getInvites none cid oracle).permissionDenied = false ∧
      getInvites none cid oracle = getInvites none cid oracle2 ∧
      (createInvite none cid oracle invopts).permissionDenied = false ∧
      createInvite none cid oracle invopts =
        createInvite none cid oracle2 invopts ∧
      (getWebhooks none cid oracle).permissionDenied = false ∧
      getWebhooks none cid oracle = getWebhooks none cid oracle2 := by
  refine ⟨rfl, rfl, ?_, rfl, ?_, rfl, ?_, rfl, rfl, rfl, rfl, rfl, rfl, rfl⟩
  · cases h : getMessages.limitExceeds options <;>
      simp [getMessages, h, GetMessagesOutcome.permissionDenied]
  · cases h : sendMessage.contentTooLong (normalizeContent arg) <;>
      simp [sendMessage, h, SendMessageOutcome.permissionDenied,
        ActionError.isPermissionDenied]
  · by_cases h : ids.length < 2 <;>
      simp [deleteMessages, deleteMessages.deleteMessagesValidate, h,
        DeleteMessagesOutcome.permissionDenied,
        ActionError.isPermissionDenied]

/-- C8: edit returns the transport's raw patch result unchanged, the
cache component of the state (hence the entry for every channel id) is
exactly the input cache, and the only effect is the single appended
PATCH transport call; no permission oracle appears anywhere in edit's
signature, so no permission is enforced. -/
theorem edit_frame {σ ε ρ : Type} (cid : String) (options : σ)
    (patchTransport : String → σ → ρ) (st : WorldState ε) :
    (edit cid options patchTransport st).1 =
        patchTransport (endpoints.GUILD_CHANNELS cid) options ∧
      (edit cid options patchTransport st).2.cache = st.cache ∧
      (∀ anyId : String,
        (edit cid options patchTransport st).2.cache.lookup anyId =
          st.cache.lookup anyId) ∧
      (edit cid options patchTransport st).2.calls =
        st.calls ++ [TransportCall.patch (endpoints.GUILD_CHANNELS cid)] :=
  ⟨rfl, rfl, fun _ => rfl, rfl⟩

/-- C9: the channel built by createChannel has mention equal to the
literal angle-bracket string around its id, nsfw false when the raw
nsfw field is absent, and an empty normalized overwrite sequence when
permission_overwrites is absent. -/
theorem createChannel_defaults {α : Type} (calculatePermissions : Nat → α)
    (data : ChannelCreatePayload) :
    (createChannel calculatePermissions data).mention =
        "<#" ++ data.id ++ ">" ∧
      (data.nsfw = none →
        (createChannel calculatePermissions data).nsfw = false) ∧
      (data.permission_overwrites = none →
        (createChannel calculatePermissions data).permissions = []) := by
  refine ⟨rfl, fun h => ?_, fun h => ?_⟩
  · simp [createChannel, h]
  · simp [createChannel, h]

/-- A minimal raw payload with id 10 and every optional field absent. -/
def samplePayload : ChannelCreatePayload :=
  ⟨"10", none, none, none, none, none, none, none, none⟩

/-- C9 witness: the payload with id 10 and absent nsfw and overwrites
produces mention <#10>, nsfw false and no overwrites. -/
theorem createChannel_defaults_witness :
    (createChannel (fun n => n) samplePayload).mention = "<#10>" ∧
      (createChannel (fun n => n) samplePayload).nsfw = false ∧
      (createChannel (fun n => n) samplePayload).permissions = [] := by
  have h := createChannel_defaults (fun n => n) samplePayload
  exact ⟨h.1.trans (by decide), h.2.1 rfl, h.2.2 rfl⟩

/-- C10: every deleteMessages call that reaches dispatch (at least two
ids and the permission granted or no guild id) leaves the caller's ids
array holding exactly the elements beyond the first 100 (the splice
removes the first min(100, length) in place), hence empty whenever at
most 100 ids were passed. -/
theorem deleteMessages_splices_ids (guild : Option String) (cid : String)
    (oracle : String → List Nat → Bool) (ids : List String)
    (reason : Option String)
    (hperm : ∀ g, guild = some g →
      oracle g [Permissions.MANAGE_MESSAGES] = true)
    (hlen : 2 ≤ ids.length) :
    (deleteMessages guild cid oracle ids reason).idsAfter = ids.drop 100 ∧
      (ids.length ≤ 100 →
        (deleteMessages guild cid oracle ids reason).idsAfter = []) := by
  have hgate : deleteMessages guild cid oracle ids reason =
      deleteMessages.deleteMessagesValidate cid ids reason := by
    cases guild with
    | none => rfl
    | some g => simp [deleteMessages, hperm g rfl]
  have hn2 : ¬ ids.length < 2 := by omega
  have hval :
      (deleteMessages.deleteMessagesValidate cid ids reason).idsAfter =
        ids.drop 100 := by
    simp [deleteMessages.deleteMessagesValidate, hn2,
      DeleteMessagesOutcome.idsAfter]
  refine ⟨by rw [hgate]; exact hval, fun h100 => ?_⟩
  rw [hgate, hval]
  exact List.drop_eq_nil_of_le h100

/-- C10 witness: two ids on a granting guild channel dispatch and leave
the caller's array empty. -/
theorem deleteMessages_splices_ids_witness :
    (deleteMessages (some "g") "c" (fun _ _ => true)
        ["1", "2"] none).idsAfter = [] := by
  have h := deleteMessages_splices_ids (some "g") "c" (fun _ _ => true)
    ["1", "2"] none (fun g hg => rfl) (by decide)
  exact h.2 (by decide)

end Discordeno
